import Mathlib

/-
Verification of the screenshot-highlighting module
(browser_use/browser/python_highlights.py).

The Python source is shallowly embedded: pure Python functions become Lean
functions; PIL drawing calls become explicit draw-command lists appended to a
frame; Python machine floats are modelled as exact rationals; Python
`int(...)` (truncation toward zero) is modelled by `pyInt`; fallible
operations (base64/PNG decoding, the CDP metrics query) become `Option`
values, and a `try/except` that swallows a failure becomes a `match` on that
`Option`.
-/

/-- Python `int(...)` applied to a rational value: truncation toward zero. -/
def pyInt (q : ℚ) : Int :=
  if 0 ≤ q.num then ((q.num.toNat / q.den : Nat) : Int)
  else -(((-q.num).toNat / q.den : Nat) : Int)

/-- On nonnegative rationals, Python truncation agrees with the floor. -/
theorem pyInt_eq_floor (q : ℚ) (h : 0 ≤ q) : pyInt q = ⌊q⌋ := by
  have hn : 0 ≤ q.num := Rat.num_nonneg.mpr h
  unfold pyInt
  rw [if_pos hn, Rat.floor_def, Int.natCast_ediv]
  rw [show ((q.num.toNat : ℤ)) = q.num from Int.toNat_of_nonneg hn]
  rfl

/-- One drawing command issued against the PIL drawing surface. -/
inductive DrawOp where
  | line (p1 p2 : Int × Int) (color : String) (width : Nat)
  | rect (x1 y1 x2 y2 : Int) (fill outline : String) (width : Nat)
  | text (x y : Int) (s : String) (fill : String)
  deriving DecidableEq

/-- The fixed color table ELEMENT_COLORS of the source module. -/
def ELEMENT_COLORS : List (String × String) :=
  [("button", "#FF6B6B"),
   ("input", "#4ECDC4"),
   ("select", "#45B7D1"),
   ("a", "#96CEB4"),
   ("textarea", "#FF8C42"),
   ("default", "#DDA0DD")]

/-- Python dict.get with a default value, on an association list. -/
def dict_get (d : List (String × String)) (k dflt : String) : String :=
  (d.lookup k).getD dflt

/-- Python truthiness of an optional string (None and the empty string are falsy). -/
def truthyStr : Option String → Bool
  | none => false
  | some s => s ≠ ""

/-- Python str.lower(), character by character (the color-table keys and the
tag names of interest are ASCII, where this is exact). -/
def str_lower (s : String) : String := ⟨s.data.map Char.toLower⟩

/-- get_element_color from the source: an exact-case input/button-submit
override, then a lowercased lookup in ELEMENT_COLORS with the default color
as fallback. -/
def get_element_color (tag_name : String) (element_type : Option String) : String :=
  if tag_name = "input" ∧ truthyStr element_type
      ∧ (element_type = some "button" ∨ element_type = some "submit") then
    dict_get ELEMENT_COLORS "button" ""
  else
    dict_get ELEMENT_COLORS (str_lower tag_name) (dict_get ELEMENT_COLORS "default" "")

/-- The color rule as the spec sentence reads it: fully case-insensitive,
including the input/button-submit override. Kept separate from the code
embedding so the two can be compared. -/
def specColorFor (tag_name : String) (element_type : Option String) : String :=
  if str_lower tag_name = "input"
      ∧ (element_type = some "button" ∨ element_type = some "submit") then
    dict_get ELEMENT_COLORS "button" ""
  else
    dict_get ELEMENT_COLORS (str_lower tag_name) (dict_get ELEMENT_COLORS "default" "")

/-- The label-text decision of process_element_highlight (lines 334 to 346 of
the source): no index means no label; with filtering on, the index is shown
only when the meaningful text has fewer than 5 characters. -/
def index_text_for (element_index : Option Int) (filter_highlight_ids : Bool)
    (meaningful_text : String) : Option String :=
  match element_index with
  | none => none
  | some idx =>
    if filter_highlight_ids then
      if meaningful_text.length < 5 then some (toString idx) else none
    else
      some (toString idx)

/-- base_font_size of the enhanced renderer: max(16, min(48, int(imageWidth * 0.03))).
The float product of a Nat with 0.03, truncated by int(...), is the exact
value 3 * w / 100 rounded toward zero, i.e. Nat division. -/
def base_font_size (img_width : Nat) : Int :=
  max 16 (min 48 ((img_width * 3) / 100 : Nat))

/-- The font-size formula exactly as the spec sentence states it: imageWidth * 0.03
rounded to the NEAREST integer, then clamped to the interval 16 to 48. -/
def spec_round_font_size (img_width : Nat) : Int :=
  max 16 (min 48 (round ((img_width : ℚ) * (3 / 100))))

/-- The same clamp over truncation (floor, as the operand is nonnegative),
stated in rational arithmetic; this is what the code actually computes. -/
def spec_trunc_font_size (img_width : Nat) : Int :=
  max 16 (min 48 ⌊(img_width : ℚ) * (3 / 100)⌋)

/-- padding of the enhanced label: max(4, int(imageWidth * 0.005)), again exact
truncation of the product with a Nat. -/
def label_padding (img_width : Nat) : Int :=
  max 4 ((img_width * 5) / 1000 : Nat)

/-- Vertical branch of draw_dashed_line: from y while y < endY, draw a solid
segment of length dash_length (4) clipped at endY, then step by
dash_length + gap_length (12). -/
def dashedSegmentsVert (color : String) (x y endY : Int) : List DrawOp :=
  if y < endY then
    DrawOp.line (x, y) (x, min (y + 4) endY) color 2
      :: dashedSegmentsVert color x (y + 4 + 8) endY
  else []
termination_by (endY - y).toNat
decreasing_by omega

/-- Horizontal branch of draw_dashed_line: from x while x < endX. -/
def dashedSegmentsHorz (color : String) (y x endX : Int) : List DrawOp :=
  if x < endX then
    DrawOp.line (x, y) (min (x + 4) endX, y) color 2
      :: dashedSegmentsHorz color y (x + 4 + 8) endX
  else []
termination_by (endX - x).toNat
decreasing_by omega

/-- draw_dashed_line of the enhanced renderer: the vertical branch is chosen
when the start and end x coordinates coincide, the horizontal one otherwise. -/
def draw_dashed_line (color : String) (start_x start_y end_x end_y : Int) : List DrawOp :=
  if start_x = end_x then dashedSegmentsVert color start_x start_y end_y
  else dashedSegmentsHorz color start_y start_x end_x

/-- The four draw_dashed_line calls of draw_enhanced_bounding_box_with_text,
with the argument order of the source (top, right, bottom, left). -/
def dashed_rectangle (color : String) (x1 y1 x2 y2 : Int) : List DrawOp :=
  draw_dashed_line color x1 y1 x2 y1
    ++ draw_dashed_line color x2 y1 x2 y2
    ++ draw_dashed_line color x2 y2 x1 y2
    ++ draw_dashed_line color x1 y2 x1 y1

/-- The label container and text anchor produced by the enhanced renderer. -/
structure LabelLayout where
  bg_x1 : Int
  bg_y1 : Int
  bg_x2 : Int
  bg_y2 : Int
  text_x : Int
  text_y : Int
  deriving DecidableEq

/-- Label placement before boundary clamping (source lines 124 to 149):
container size is text size plus padding on both sides; the container goes
2 px inside the top-left corner when the element box fits it on both axes,
otherwise directly above the top-left corner, clipped at y = 0; the text is
centred with Python floor division and corrected by the measured top bump. -/
def place_label (x1 y1 x2 y2 text_width text_height text_top : Int)
    (img_width : Nat) : LabelLayout :=
  let padding := label_padding img_width
  let element_width := x2 - x1
  let element_height := y2 - y1
  let container_width := text_width + padding * 2
  let container_height := text_height + padding * 2
  let start :=
    if container_width ≤ element_width ∧ container_height ≤ element_height then
      (x1 + 2, y1 + 2)
    else
      (x1, max 0 (y1 - container_height))
  let bg_x1 := start.1
  let bg_y1 := start.2
  let bg_x2 := bg_x1 + container_width
  let bg_y2 := bg_y1 + container_height
  let text_x := bg_x1 + Int.fdiv (container_width - text_width) 2
  let text_y := bg_y1 + Int.fdiv (container_height - text_height) 2 - text_top
  ⟨bg_x1, bg_y1, bg_x2, bg_y2, text_x, text_y⟩

/-- The four sequential boundary clamps of the source (lines 152 to 172): each
axis edge that sticks out shifts the whole container, and the text anchor
with it, back inside the image on that axis. -/
def clamp_label (img_width img_height : Nat) (L : LabelLayout) : LabelLayout :=
  let ox1 := if L.bg_x1 < 0 then -L.bg_x1 else 0
  let L1 : LabelLayout :=
    ⟨L.bg_x1 + ox1, L.bg_y1, L.bg_x2 + ox1, L.bg_y2, L.text_x + ox1, L.text_y⟩
  let oy1 := if L1.bg_y1 < 0 then -L1.bg_y1 else 0
  let L2 : LabelLayout :=
    ⟨L1.bg_x1, L1.bg_y1 + oy1, L1.bg_x2, L1.bg_y2 + oy1, L1.text_x, L1.text_y + oy1⟩
  let ox2 := if (img_width : Int) < L2.bg_x2 then L2.bg_x2 - img_width else 0
  let L3 : LabelLayout :=
    ⟨L2.bg_x1 - ox2, L2.bg_y1, L2.bg_x2 - ox2, L2.bg_y2, L2.text_x - ox2, L2.text_y⟩
  let oy2 := if (img_height : Int) < L3.bg_y2 then L3.bg_y2 - img_height else 0
  ⟨L3.bg_x1, L3.bg_y1 - oy2, L3.bg_x2, L3.bg_y2 - oy2, L3.text_x, L3.text_y - oy2⟩

/-- Full label layout of the enhanced renderer: placement then clamping. -/
def compute_label_layout (x1 y1 x2 y2 text_width text_height text_top : Int)
    (img_width img_height : Nat) : LabelLayout :=
  clamp_label img_width img_height
    (place_label x1 y1 x2 y2 text_width text_height text_top img_width)

/-- draw_enhanced_bounding_box_with_text: the dashed rectangle, then, when
label text is present, the label container rectangle and the centred white
text. Text measurement (PIL textbbox with the loaded font) is an external
collaborator, passed in as an oracle from font size and text to the measured
glyph bounding box. -/
def draw_enhanced_bounding_box_with_text
    (measure : Int → String → Int × Int × Int × Int)
    (bbox : Int × Int × Int × Int) (color : String) (text : Option String)
    (image_size : Nat × Nat) : List DrawOp :=
  let x1 := bbox.1
  let y1 := bbox.2.1
  let x2 := bbox.2.2.1
  let y2 := bbox.2.2.2
  let dashes := dashed_rectangle color x1 y1 x2 y2
  match text with
  | none => dashes
  | some t =>
    let fs := base_font_size image_size.1
    let bbox_text := measure fs t
    let text_width := bbox_text.2.2.1 - bbox_text.1
    let text_height := bbox_text.2.2.2 - bbox_text.2.1
    let L := compute_label_layout x1 y1 x2 y2 text_width text_height bbox_text.2.1
      image_size.1 image_size.2
    dashes
      ++ [DrawOp.rect L.bg_x1 L.bg_y1 L.bg_x2 L.bg_y2 color "white" 2,
          DrawOp.text L.text_x L.text_y t "white"]

/-- absolute_position of an element, in CSS pixels. -/
structure Rect where
  x : ℚ
  y : ℚ
  width : ℚ
  height : ℚ
  deriving DecidableEq

/-- The element fields read by process_element_highlight. Fields the source
probes with hasattr or truthiness checks are optional. meaningful_text is the
externally computed string returned by get_meaningful_text_for_llm. -/
structure DOMElement where
  absolute_position : Option Rect
  tag_name : Option String
  attributes : Option (List (String × String))
  element_index : Option Int
  meaningful_text : String

/-- Device-pixel bounding box of an element (source lines 309 to 319): scale
the CSS-pixel bounds by the device pixel ratio, truncate to int, then clip to
the image rectangle. -/
def clipped_device_box (bounds : Rect) (dpr : ℚ) (image_size : Nat × Nat) :
    Int × Int × Int × Int :=
  let x1 := pyInt (bounds.x * dpr)
  let y1 := pyInt (bounds.y * dpr)
  let x2 := pyInt ((bounds.x + bounds.width) * dpr)
  let y2 := pyInt ((bounds.y + bounds.height) * dpr)
  let img_w := (image_size.1 : Int)
  let img_h := (image_size.2 : Int)
  let x1 := max 0 (min x1 img_w)
  let y1 := max 0 (min y1 img_h)
  let x2 := max x1 (min x2 img_w)
  let y2 := max y1 (min y2 img_h)
  (x1, y1, x2, y2)

/-- process_element_highlight: skip elements with no absolute_position; skip
boxes whose clipped device-pixel size is under 2 px on either axis; otherwise
resolve color and label text and invoke the enhanced renderer. The result is
the list of drawing commands applied to the shared surface; an element that
is skipped contributes none. -/
def process_element_highlight (element_id : Int) (element : DOMElement)
    (dpr : ℚ) (measure : Int → String → Int × Int × Int × Int)
    (filter_highlight_ids : Bool) (image_size : Nat × Nat) : List DrawOp :=
  match element.absolute_position with
  | none => []
  | some bounds =>
    match clipped_device_box bounds dpr image_size with
    | (x1, y1, x2, y2) =>
      if x2 - x1 < 2 ∨ y2 - y1 < 2 then []
      else
        let tag_name := element.tag_name.getD "div"
        let element_type :=
          match element.attributes with
          | some attrs => if attrs.isEmpty then none else attrs.lookup "type"
          | none => none
        let color := get_element_color tag_name element_type
        let index_text :=
          index_text_for element.element_index filter_highlight_ids element.meaningful_text
        draw_enhanced_bounding_box_with_text measure (x1, y1, x2, y2) color index_text
          image_size

/-- Image codec detected by PIL when opening the screenshot bytes. -/
inductive ImageFormat where
  | png
  | jpeg
  | webp
  deriving DecidableEq

/-- The decoded drawing surface: pixel dimensions plus the overlay of drawing
commands applied so far. PIL mutates the surface in place; drawing never
changes the dimensions. -/
structure Frame where
  width : Nat
  height : Nat
  ops : List DrawOp
  deriving DecidableEq

/-- Input bytes of create_highlighted_screenshot: either bytes PIL can decode
to a raster image of some codec, or bytes on which base64/PIL decoding
raises. -/
inductive ScreenshotData where
  | undecodable (data : String)
  | image (format : ImageFormat) (frame : Frame)
  deriving DecidableEq

/-- The decode step (base64 decode, Image.open, convert RGBA): the codec is
detected from the bytes; failure raises, modelled as none. -/
def decode_screenshot : ScreenshotData → Option (Frame × ImageFormat)
  | .undecodable _ => none
  | .image fmt frame => some (frame, fmt)

/-- Pixel dimensions carried by encoded image bytes, when decodable. -/
def screenshot_dims : ScreenshotData → Option (Nat × Nat)
  | .undecodable _ => none
  | .image _ frame => some (frame.width, frame.height)

/-- Codec carried by encoded image bytes, when decodable. -/
def screenshot_format : ScreenshotData → Option ImageFormat
  | .undecodable _ => none
  | .image fmt _ => some fmt

/-- create_highlighted_screenshot: decode, draw every element of the selector
map in iteration order onto the surface, save as PNG. The whole body sits in
a try/except whose handler returns the original input, so a decode failure
yields the input bytes unchanged. The viewport offsets are accepted but not
used in the pixel math, as in the source. -/
def create_highlighted_screenshot (screenshot : ScreenshotData)
    (selector_map : List (Int × DOMElement)) (dpr : ℚ)
    (viewport_offset_x viewport_offset_y : Int) (filter_highlight_ids : Bool)
    (measure : Int → String → Int × Int × Int × Int) : ScreenshotData :=
  match decode_screenshot screenshot with
  | none => screenshot
  | some (frame, _fmt) =>
    let new_ops := selector_map.foldl
      (fun acc p =>
        acc ++ process_element_highlight p.1 p.2 dpr measure filter_highlight_ids
          (frame.width, frame.height))
      []
    ScreenshotData.image ImageFormat.png { frame with ops := frame.ops ++ new_ops }

/-- The layout-metrics response fields read by get_viewport_info_from_cdp;
every field may be missing from the CDP payload. -/
structure LayoutMetrics where
  visualViewport_clientWidth : Option ℚ
  cssVisualViewport_clientWidth : Option ℚ
  cssLayoutViewport_clientWidth : Option ℚ
  cssVisualViewport_pageX : Option ℚ
  cssVisualViewport_pageY : Option ℚ

/-- CSS width resolution: cssVisualViewport.clientWidth, falling back to
cssLayoutViewport.clientWidth, falling back to 1280.0. -/
def resolved_css_width (m : LayoutMetrics) : ℚ :=
  m.cssVisualViewport_clientWidth.getD (m.cssLayoutViewport_clientWidth.getD 1280)

/-- Device width resolution: visualViewport.clientWidth, falling back to the
resolved CSS width. -/
def resolved_device_width (m : LayoutMetrics) : ℚ :=
  m.visualViewport_clientWidth.getD (resolved_css_width m)

/-- get_viewport_info_from_cdp: a failing metrics query (modelled as none)
returns the neutral default; otherwise the device pixel ratio is
deviceWidth / cssWidth guarded to 1.0 when cssWidth is not positive, and the
scroll offsets are the page positions truncated to int. -/
def get_viewport_info_from_cdp (response : Option LayoutMetrics) : ℚ × Int × Int :=
  match response with
  | none => (1, 0, 0)
  | some metrics =>
    let css_width := resolved_css_width metrics
    let device_width := resolved_device_width metrics
    let ratio := if 0 < css_width then device_width / css_width else 1
    (ratio,
     pyInt (metrics.cssVisualViewport_pageX.getD 0),
     pyInt (metrics.cssVisualViewport_pageY.getD 0))

/-- A fixed text-measurement oracle used by the concrete witnesses. -/
def measure0 : Int → String → Int × Int × Int × Int := fun _ _ => (0, 0, 10, 10)

/-- A concrete decoded frame used by the concrete witnesses. -/
def frame0 : Frame := ⟨100, 50, []⟩

/-- C1: create_highlighted_screenshot never surfaces an error to the caller:
it always returns a value (the original bytes or an annotated PNG image), and
whenever the decode step fails it returns the original input bytes completely
unchanged. -/
theorem create_highlighted_screenshot_never_fails :
    ∀ (screenshot : ScreenshotData) (selector_map : List (Int × DOMElement))
      (dpr : ℚ) (vox voy : Int) (filt : Bool)
      (measure : Int → String → Int × Int × Int × Int),
      (decode_screenshot screenshot = none →
        create_highlighted_screenshot screenshot selector_map dpr vox voy filt measure
          = screenshot) ∧
      (create_highlighted_screenshot screenshot selector_map dpr vox voy filt measure
          = screenshot ∨
        ∃ frame,
          create_highlighted_screenshot screenshot selector_map dpr vox voy filt measure
            = ScreenshotData.image ImageFormat.png frame) := by
  intro s selector_map dpr vox voy filt measure
  cases s with
  | undecodable d => exact ⟨fun _ => rfl, Or.inl rfl⟩
  | image fmt fr =>
    exact ⟨fun h => by simp [decode_screenshot] at h, Or.inr ⟨_, rfl⟩⟩

/-- C1 witness: concrete undecodable bytes come back unchanged. -/
theorem create_highlighted_screenshot_never_fails_witness :
    create_highlighted_screenshot (ScreenshotData.undecodable "corrupt") [] 1 0 0 true
      measure0 = ScreenshotData.undecodable "corrupt" :=
  (create_highlighted_screenshot_never_fails (ScreenshotData.undecodable "corrupt") []
    1 0 0 true measure0).1 rfl

/-- C2: the source means to dash all four edges (its comments label the four
calls Top, Right, Bottom, Left), but the bottom and left calls hand
draw_dashed_line a start coordinate at or beyond the end coordinate, so their
while loops run zero times: for the box (0, 0, 20, 20) the bottom edge call
(from x 20 to x 0 at y 20) and the left edge call (from y 20 to y 0 at x 0)
produce no segments, while the top and right calls do. -/
theorem dashed_rectangle_bottom_left_edges_empty :
    draw_dashed_line "#FF6B6B" 20 20 0 20 = [] ∧
    draw_dashed_line "#FF6B6B" 0 20 0 0 = [] ∧
    draw_dashed_line "#FF6B6B" 0 0 20 0 ≠ [] ∧
    draw_dashed_line "#FF6B6B" 20 0 20 20 ≠ [] := by
  refine ⟨?_, ?_, ?_, ?_⟩ <;>
    simp [draw_dashed_line, dashedSegmentsHorz, dashedSegmentsVert]

/-- C5: the label-text policy: no element index means no label; with
filterHighlightIds on, the decimal index string is shown exactly when the
meaningful text has length under 5 (and nothing else is ever shown); with
filtering off the decimal index string is always shown. -/
theorem index_text_policy :
    ∀ (idx : Int) (filt : Bool) (txt : String),
      index_text_for none filt txt = none ∧
      (index_text_for (some idx) true txt = some (toString idx) ↔ txt.length < 5) ∧
      (index_text_for (some idx) true txt = none ∨
        index_text_for (some idx) true txt = some (toString idx)) ∧
      index_text_for (some idx) false txt = some (toString idx) := by
  intro idx filt txt
  refine ⟨rfl, ?_, ?_, rfl⟩
  · by_cases h : txt.length < 5 <;> simp [index_text_for, h]
  · by_cases h : txt.length < 5 <;> simp [index_text_for, h]

/-- C10: an element whose absolute_position is absent is skipped before any
drawing: process_element_highlight returns no drawing commands for it. -/
theorem missing_absolute_position_skipped :
    ∀ (eid : Int) (element : DOMElement) (dpr : ℚ)
      (measure : Int → String → Int × Int × Int × Int) (filt : Bool)
      (image_size : Nat × Nat),
      element.absolute_position = none →
      process_element_highlight eid element dpr measure filt image_size = [] := by
  intro eid element dpr measure filt image_size h
  unfold process_element_highlight
  rw [h]

/-- A concrete element carrying no absolute_position. -/
def element_no_position : DOMElement := ⟨none, some "button", none, some 7, "Submit"⟩

/-- C10 witness: the concrete element with absent absolute_position yields no
drawing commands. -/
theorem missing_absolute_position_skipped_witness :
    process_element_highlight 7 element_no_position 1 measure0 true (1200, 800) = [] :=
  missing_absolute_position_skipped 7 element_no_position 1 measure0 true (1200, 800) rfl

/-- C8 counterexample: a decodable JPEG input comes back encoded as PNG, so
the output codec differs from the input codec; the claim that the annotated
image is encoded in the same codec as the input is false. -/
theorem jpeg_input_reencoded_as_png :
    screenshot_format (create_highlighted_screenshot
        (ScreenshotData.image ImageFormat.jpeg frame0) [] 1 0 0 true measure0)
      = some ImageFormat.png ∧
    screenshot_format (ScreenshotData.image ImageFormat.jpeg frame0)
      = some ImageFormat.jpeg ∧
    (some ImageFormat.png ≠ some ImageFormat.jpeg) :=
  ⟨rfl, rfl, by decide⟩

/-- C8 amended: for every decodable input, the annotated image keeps the pixel
width and height of the input, and is always encoded as PNG (image.save uses
format PNG unconditionally), so the codec is preserved only for PNG inputs. -/
theorem annotate_preserves_dims_encodes_png :
    ∀ (screenshot : ScreenshotData) (selector_map : List (Int × DOMElement))
      (dpr : ℚ) (vox voy : Int) (filt : Bool)
      (measure : Int → String → Int × Int × Int × Int) (frame : Frame)
      (fmt : ImageFormat),
      decode_screenshot screenshot = some (frame, fmt) →
      screenshot_dims (create_highlighted_screenshot screenshot selector_map dpr vox voy
          filt measure) = some (frame.width, frame.height) ∧
      screenshot_dims screenshot = some (frame.width, frame.height) ∧
      screenshot_format (create_highlighted_screenshot screenshot selector_map dpr vox voy
          filt measure) = some ImageFormat.png := by
  intro s selector_map dpr vox voy filt measure frame fmt h
  cases s with
  | undecodable d => simp [decode_screenshot] at h
  | image f fr =>
    obtain ⟨h1, h2⟩ : fr = frame ∧ f = fmt := by
      simpa [decode_screenshot] using h
    subst h1
    subst h2
    exact ⟨rfl, rfl, rfl⟩

/-- C8 amended witness: a concrete PNG input of size 100 x 50 keeps its
dimensions and stays PNG. -/
theorem annotate_preserves_dims_encodes_png_witness :
    screenshot_dims (create_highlighted_screenshot
        (ScreenshotData.image ImageFormat.png frame0) [] 1 0 0 true measure0)
      = some (100, 50) ∧
    screenshot_format (create_highlighted_screenshot
        (ScreenshotData.image ImageFormat.png frame0) [] 1 0 0 true measure0)
      = some ImageFormat.png := by
  have h := annotate_preserves_dims_encodes_png
    (ScreenshotData.image ImageFormat.png frame0) [] 1 0 0 true measure0 frame0
    ImageFormat.png rfl
  exact ⟨h.1, h.2.2⟩

/-- C9: get_viewport_info_from_cdp returns the neutral default (1, 0, 0) when
the metrics query fails; on success the device pixel ratio is
deviceWidth / cssWidth with 1.0 substituted when cssWidth is not positive,
and the scroll offsets are the page positions truncated to integers. -/
theorem get_viewport_info_characterization :
    ∀ response : Option LayoutMetrics,
      (response = none → get_viewport_info_from_cdp response = (1, 0, 0)) ∧
      (∀ m : LayoutMetrics, response = some m →
        (resolved_css_width m ≤ 0 → (get_viewport_info_from_cdp response).1 = 1) ∧
        (0 < resolved_css_width m →
          (get_viewport_info_from_cdp response).1
            = resolved_device_width m / resolved_css_width m) ∧
        (get_viewport_info_from_cdp response).2.1
          = pyInt (m.cssVisualViewport_pageX.getD 0) ∧
        (get_viewport_info_from_cdp response).2.2
          = pyInt (m.cssVisualViewport_pageY.getD 0)) := by
  intro response
  constructor
  · rintro rfl
    rfl
  · rintro m rfl
    refine ⟨?_, ?_, rfl, rfl⟩
    · intro hle
      have hnot : ¬ 0 < resolved_css_width m := not_lt.mpr hle
      simp [get_viewport_info_from_cdp, hnot]
    · intro hlt
      simp [get_viewport_info_from_cdp, hlt]

/-- A concrete metrics response: css width 0 (guard case) and a fractional
page x offset. -/
def metrics0 : LayoutMetrics := ⟨none, some (mkRat 0 1), none, some (mkRat 21 2), none⟩

/-- C9 witness: on the concrete response the guard substitutes ratio 1 and the
scroll offsets truncate to (10, 0). -/
theorem get_viewport_info_characterization_witness :
    (get_viewport_info_from_cdp (some metrics0)).1 = 1 ∧
    (get_viewport_info_from_cdp (some metrics0)).2.1 = 10 ∧
    (get_viewport_info_from_cdp (some metrics0)).2.2 = 0 := by
  have h := (get_viewport_info_characterization (some metrics0)).2 metrics0 rfl
  refine ⟨h.1 (by decide), ?_, ?_⟩
  · rw [h.2.2.1]
    decide
  · rw [h.2.2.2]
    decide

/-- C7: an element whose device-pixel box, after scaling by the device pixel
ratio and clipping to the image rectangle, is under 2 px wide or under 2 px
tall is skipped entirely: no outline, no label, no drawing commands. -/
theorem small_device_box_skipped :
    ∀ (eid : Int) (element : DOMElement) (dpr : ℚ)
      (measure : Int → String → Int × Int × Int × Int) (filt : Bool)
      (image_size : Nat × Nat) (bounds : Rect) (x1 y1 x2 y2 : Int),
      element.absolute_position = some bounds →
      clipped_device_box bounds dpr image_size = (x1, y1, x2, y2) →
      (x2 - x1 < 2 ∨ y2 - y1 < 2) →
      process_element_highlight eid element dpr measure filt image_size = [] := by
  intro eid element dpr measure filt image_size bounds x1 y1 x2 y2 hpos hbox hsmall
  obtain ⟨pos, tag, attrs, idx, mt⟩ := element
  simp only at hpos
  subst hpos
  unfold process_element_highlight
  dsimp only
  rw [hbox]
  dsimp only
  exact if_pos hsmall

/-- The concrete Scenario E style element: a zero-size box at (5, 5). -/
def rectE : Rect := ⟨5, 5, 0, 0⟩

/-- A concrete element whose device-pixel box is degenerate. -/
def elementE : DOMElement := ⟨some rectE, some "button", none, some 3, ""⟩

/-- C7 witness: the concrete degenerate element produces no drawing commands. -/
theorem small_device_box_skipped_witness :
    process_element_highlight 5 elementE 1 measure0 true (1200, 800) = [] := by
  refine small_device_box_skipped 5 elementE 1 measure0 true (1200, 800) rectE 5 5 5 5
    rfl ?_ (Or.inl (by decide))
  simp [clipped_device_box, rectE, pyInt]

/-- C4 counterexample: the claim describes the lookup, override included, as
case-insensitive, but the input/button-submit override compares the tag
case-sensitively: for tag INPUT with type submit the code lands in the
lowercased table lookup and returns the generic input color, not the button
color the case-insensitive reading (specColorFor) produces. -/
theorem uppercase_input_submit_not_button_color :
    get_element_color "INPUT" (some "submit") = "#4ECDC4" ∧
    specColorFor "INPUT" (some "submit") = "#FF6B6B" ∧
    get_element_color "INPUT" (some "submit") ≠ specColorFor "INPUT" (some "submit") :=
  ⟨by decide, by decide, by decide⟩

/-- Any lookup in the color table with the default color as fallback yields
one of the six table colors. -/
theorem dict_get_mem_colors (k : String) :
    dict_get ELEMENT_COLORS k (dict_get ELEMENT_COLORS "default" "")
      ∈ ["#FF6B6B", "#4ECDC4", "#45B7D1", "#96CEB4", "#FF8C42", "#DDA0DD"] := by
  have hd : dict_get ELEMENT_COLORS "default" "" = "#DDA0DD" := by decide
  rw [hd]
  unfold dict_get ELEMENT_COLORS
  simp only [List.lookup]
  repeat' split <;> simp_all

/-- C4 amended: get_element_color is total and always returns one of the six
table colors; the table lookup itself is case-insensitive (on the lowercased
tag) with the default color for unknown tags; but the input/button-submit
override fires only on the exact lowercase tag input with exact type button
or submit - any other casing falls through to the table lookup. -/
theorem get_element_color_characterization :
    ∀ (tag : String) (ty : Option String),
      (get_element_color "input" (some "button") = "#FF6B6B" ∧
       get_element_color "input" (some "submit") = "#FF6B6B") ∧
      (¬ (tag = "input" ∧ (ty = some "button" ∨ ty = some "submit")) →
        get_element_color tag ty
          = dict_get ELEMENT_COLORS (str_lower tag)
              (dict_get ELEMENT_COLORS "default" "")) ∧
      (ELEMENT_COLORS.lookup (str_lower tag) = none →
        get_element_color tag ty = "#DDA0DD") ∧
      get_element_color tag ty
        ∈ ["#FF6B6B", "#4ECDC4", "#45B7D1", "#96CEB4", "#FF8C42", "#DDA0DD"] := by
  intro tag ty
  refine ⟨⟨by decide, by decide⟩, ?_, ?_, ?_⟩
  · intro hn
    have hn' : ¬ (tag = "input" ∧ truthyStr ty
        ∧ (ty = some "button" ∨ ty = some "submit")) := by
      rintro ⟨h1, h2, h3⟩
      exact hn ⟨h1, h3⟩
    unfold get_element_color
    rw [if_neg hn']
  · intro hlook
    have hn2 : ¬ (tag = "input" ∧ truthyStr ty
        ∧ (ty = some "button" ∨ ty = some "submit")) := by
      rintro ⟨h1, h2, h3⟩
      subst h1
      exact absurd hlook (by decide)
    unfold get_element_color
    rw [if_neg hn2]
    unfold dict_get
    rw [hlook]
    rfl
  · unfold get_element_color
    split_ifs with hcond
    · decide
    · exact dict_get_mem_colors (str_lower tag)

/-- C4 amended witness: tag SELECT with no type resolves through the
case-insensitive table lookup to the select color. -/
theorem get_element_color_characterization_witness :
    get_element_color "SELECT" none = "#45B7D1" := by
  have h := (get_element_color_characterization "SELECT" none).2.1 (by decide)
  rw [h]
  decide

/-- C6 counterexample: at image width 999 the code computes int(999 * 0.03),
truncating 29.97 down to 29, while the claim formula rounds to the nearest
integer, 30. -/
theorem font_size_truncates_not_rounds :
    base_font_size 999 = 29 ∧ spec_round_font_size 999 = 30 ∧
    base_font_size 999 ≠ spec_round_font_size 999 := by
  have h : round ((((999 : ℕ)) : ℚ) * (3 / 100)) = 30 := by
    rw [round_eq]
    norm_num
  have h2 : spec_round_font_size 999 = 30 := by
    unfold spec_round_font_size
    rw [h]
    decide
  refine ⟨by decide, h2, ?_⟩
  intro heq
  rw [h2, show base_font_size 999 = 29 from by decide] at heq
  exact absurd heq (by decide)

/-- C6 amended: the enhanced-style font size is imageWidth * 0.03 truncated
(equivalently floored, the operand being nonnegative) and clamped to
16 to 48; in particular it always lies in that interval. -/
theorem base_font_size_truncation_clamped :
    ∀ w : Nat, base_font_size w = spec_trunc_font_size w ∧
      16 ≤ base_font_size w ∧ base_font_size w ≤ 48 := by
  intro w
  have hcast : ((w : ℚ) * (3 / 100)) = (((w * 3 : ℕ) : ℚ) / ((100 : ℕ) : ℚ)) := by
    push_cast
    ring
  have hfloor : ⌊(w : ℚ) * (3 / 100)⌋ = ((w * 3 / 100 : ℕ) : ℤ) := by
    rw [hcast, Rat.floor_natCast_div_natCast]
    omega
  refine ⟨?_, by unfold base_font_size; omega, by unfold base_font_size; omega⟩
  unfold base_font_size spec_trunc_font_size
  rw [hfloor]

/-- C3 counterexample: on a 10 x 10 image with text measured 20 x 5 the label
container (width 28) cannot fit in the image; after the boundary clamps its
left edge sits at -18, outside [0, width], so unconditional containment of
the emitted container fails. -/
theorem label_container_escapes_small_image :
    (compute_label_layout 0 0 5 5 20 5 0 10 10).bg_x1 = -18 ∧
    ¬ (0 ≤ (compute_label_layout 0 0 5 5 20 5 0 10 10).bg_x1) :=
  ⟨by decide, by decide⟩

/-- C3 amended: the boundary clamps only translate the container and its text
anchor (container width and height and the text offset inside the container
never change), and whenever the measured container fits the image on both
axes the emitted container lies entirely within [0, width] x [0, height]. -/
theorem label_clamp_translates_and_contains :
    ∀ (x1 y1 x2 y2 tw th ttop : Int) (W H : Nat) (L C : LabelLayout),
      L = place_label x1 y1 x2 y2 tw th ttop W →
      C = compute_label_layout x1 y1 x2 y2 tw th ttop W H →
      (C.bg_x2 - C.bg_x1 = L.bg_x2 - L.bg_x1 ∧
       C.bg_y2 - C.bg_y1 = L.bg_y2 - L.bg_y1 ∧
       C.text_x - C.bg_x1 = L.text_x - L.bg_x1 ∧
       C.text_y - C.bg_y1 = L.text_y - L.bg_y1) ∧
      (tw + 2 * label_padding W ≤ (W : Int) →
       th + 2 * label_padding W ≤ (H : Int) →
       0 ≤ C.bg_x1 ∧ C.bg_x2 ≤ (W : Int) ∧ 0 ≤ C.bg_y1 ∧ C.bg_y2 ≤ (H : Int)) := by
  intro x1 y1 x2 y2 tw th ttop W H L C hL hC
  subst hL
  subst hC
  unfold compute_label_layout clamp_label place_label
  dsimp only
  split_ifs <;>
    · dsimp only
      refine ⟨⟨?_, ?_, ?_, ?_⟩, fun h1 h2 => ⟨?_, ?_, ?_, ?_⟩⟩ <;> omega

/-- C3 amended witness: the box (10, 10, 60, 30) on a 1200 x 800 image with
text measured 30 x 20 yields a container fully inside the image. -/
theorem label_clamp_translates_and_contains_witness :
    0 ≤ (compute_label_layout 10 10 60 30 30 20 0 1200 800).bg_x1 ∧
    (compute_label_layout 10 10 60 30 30 20 0 1200 800).bg_x2 ≤ (1200 : Int) ∧
    0 ≤ (compute_label_layout 10 10 60 30 30 20 0 1200 800).bg_y1 ∧
    (compute_label_layout 10 10 60 30 30 20 0 1200 800).bg_y2 ≤ (800 : Int) :=
  (label_clamp_translates_and_contains 10 10 60 30 30 20 0 1200 800 _ _ rfl rfl).2
    (by decide) (by decide)
